import Mathlib

/-!
Verification of the pyCLARA geospatial utility functions
(`lib/spatial_functions.py` and `lib/initialization.py`).

The numeric model uses exact rationals (`ℚ`) for coordinates and pixel
sizes.  Rasters are modelled as lists of rows of rationals; file-system
effects are modelled explicitly (an input file carries an `isfile` flag,
and `initialization` returns the list of files it writes alongside its
result).  Python's `sys.exit` after a diagnostic message is modelled as
`Except.error` carrying the printed message.
-/

namespace PyCLARA

/-- Geotransform tuple as returned by `gdal.Open(...).GetGeoTransform()`,
in the source's unpacking order
`(upper_left_x, x_size, x_rotation, upper_left_y, y_rotation, y_size)`
(`initialization.py`, line 31; `spatial_functions.py`, line 12). -/
structure GeoTransform where
  upper_left_x : ℚ
  x_size : ℚ
  x_rotation : ℚ
  upper_left_y : ℚ
  y_rotation : ℚ
  y_size : ℚ
deriving DecidableEq

/-- Bounding-box 4-vector `Crd_all` / `Crd_reg`.  The source stores it as
`np.array([[n], [e], [s], [w]])`, so field `north` is index 0, `east` is
index 1, `south` is index 2 and `west` is index 3
(`initialization.py`, line 32). -/
structure Crd where
  north : ℚ
  east : ℚ
  south : ℚ
  west : ℚ
deriving DecidableEq

/-- Bounding box computed for one input file (`initialization.py`, line 32):
`Crd_all = np.array([[upper_left_y], [upper_left_x + x_size*RasterXSize],
[upper_left_y + y_size*RasterYSize], [upper_left_x]])`. -/
def computeCrd (gt : GeoTransform) (rasterXSize rasterYSize : ℕ) : Crd :=
  { north := gt.upper_left_y
    east := gt.upper_left_x + gt.x_size * rasterXSize
    south := gt.upper_left_y + gt.y_size * rasterYSize
    west := gt.upper_left_x }

/-- The `res_desired` pair, stored with index 0 first and index 1 second. -/
structure ResDesired where
  res0 : ℚ
  res1 : ℚ
deriving DecidableEq

/-- The `res_desired` value built by the validator
(`initialization.py`, line 41): `np.array([abs(x_size), abs(y_size)])`. -/
def res_desired_of (gt : GeoTransform) : ResDesired :=
  { res0 := |gt.x_size|, res1 := |gt.y_size| }

/-- Georeference dictionary returned by `calc_geotiff`
(`spatial_functions.py`, lines 90-95). -/
structure GeoRef where
  RasterOrigin : ℚ × ℚ
  RasterOrigin_alt : ℚ × ℚ
  pixelWidth : ℚ
  pixelHeight : ℚ
deriving DecidableEq

/-- Translation of `calc_geotiff(Crd_all, res_desired)`
(`spatial_functions.py`, lines 90-96):
`RasterOrigin = [Crd_all[3], Crd_all[0]]`,
`RasterOrigin_alt = [Crd_all[3], Crd_all[2]]`,
`pixelWidth = res_desired[1]`, `pixelHeight = -res_desired[0]`. -/
def calc_geotiff (Crd_all : Crd) (res_desired : ResDesired) : GeoRef :=
  { RasterOrigin := (Crd_all.west, Crd_all.north)
    RasterOrigin_alt := (Crd_all.west, Crd_all.south)
    pixelWidth := res_desired.res1
    pixelHeight := -res_desired.res0 }

/-- Python's `int(...)` conversion on a rational value: truncation toward
zero (used on `math.fabs(...) / res` in `calc_region`). -/
def python_int (q : ℚ) : ℤ :=
  if q < 0 then ⌈q⌉ else ⌊q⌋

/-- Row count `M` of the mask grid (`spatial_functions.py`, lines 116, 118):
`latlim = Crd_reg[2] - Crd_reg[0]; M = int(math.fabs(latlim) / res_desired[0])`. -/
def calc_region_M (Crd_reg : Crd) (res_desired : ResDesired) : ℤ :=
  python_int (|Crd_reg.south - Crd_reg.north| / res_desired.res0)

/-- Column count `N` of the mask grid (`spatial_functions.py`, lines 117, 119):
`lonlim = Crd_reg[3] - Crd_reg[1]; N = int(math.fabs(lonlim) / res_desired[1])`. -/
def calc_region_N (Crd_reg : Crd) (res_desired : ResDesired) : ℤ :=
  python_int (|Crd_reg.west - Crd_reg.east| / res_desired.res1)

/-- Affine transform coefficients in rasterio order
`Affine(a, b, c, d, e, f)`: `a` is the x pixel size, `c` the x origin,
`e` the signed y pixel size, `f` the y origin. -/
structure Affine where
  a : ℚ
  b : ℚ
  c : ℚ
  d : ℚ
  e : ℚ
  f : ℚ
deriving DecidableEq

/-- The rasterio collaborator `rasterio.transform.from_origin(west, north,
xsize, ysize)`, which returns
`Affine.translation(west, north) * Affine.scale(xsize, -ysize)`,
i.e. `Affine(xsize, 0, west, 0, -ysize, north)`. -/
def from_origin (west north xsize ysize : ℚ) : Affine :=
  { a := xsize, b := 0, c := west, d := 0, e := -ysize, f := north }

/-- The transform placed in the profile of the in-memory mask raster by
`calc_region` (`spatial_functions.py`, lines 121, 127-128, 136):
`origin = [Crd_reg[3], Crd_reg[2]]; west = origin[0]; south = origin[1];`
then `rasterio.transform.from_origin(west, south, GeoRef["pixelWidth"],
GeoRef["pixelHeight"])`. -/
def calc_region_transform (Crd_reg : Crd) (georef : GeoRef) : Affine :=
  from_origin Crd_reg.west Crd_reg.south georef.pixelWidth georef.pixelHeight

/-- Definition following the spec's words, for comparison with
`calc_region_transform`: a georeference anchored at the region's own
north-west corner `(west, north)` carrying the global signed pixel sizes
(`pixelWidth` eastward, negative `pixelHeight` southward). -/
def spec_region_transform_nw (Crd_reg : Crd) (georef : GeoRef) : Affine :=
  { a := georef.pixelWidth, b := 0, c := Crd_reg.west, d := 0
    e := georef.pixelHeight, f := Crd_reg.north }

/-- GDAL raster data types used by the two writers. -/
inductive GDALDataType where
  | GDT_Float32
  | GDT_Float64
deriving DecidableEq

/-- An on-disk single-dataset raster as produced by the GDAL writers:
driver `Create` size and band count, the geotransform tuple set with
`SetGeoTransform`, and the contents written into band 1. -/
structure GDALRaster where
  xsize : ℕ
  ysize : ℕ
  bands : ℕ
  dtype : GDALDataType
  geotransform : GeoTransform
  band1 : List (List ℚ)
deriving DecidableEq

/-- Translation of `np.flipud`: reverses the order of the rows. -/
def flipud (array : List (List ℚ)) : List (List ℚ) :=
  array.reverse

/-- Translation of `array2raster(newRasterfn, rasterOrigin, pixelWidth,
pixelHeight, array)` (`spatial_functions.py`, lines 166-179):
`cols = array.shape[1]; rows = array.shape[0];
originX = rasterOrigin[0]; originY = rasterOrigin[1];
driver.Create(newRasterfn, cols, rows, 1, gdal.GDT_Float64, ...);
outRaster.SetGeoTransform((originX, pixelWidth, 0, originY, 0, pixelHeight));
outband.WriteArray(np.flipud(array))`. -/
def array2raster (rasterOrigin : ℚ × ℚ) (pixelWidth pixelHeight : ℚ)
    (array : List (List ℚ)) : GDALRaster :=
  { xsize := (array.headD []).length
    ysize := array.length
    bands := 1
    dtype := .GDT_Float64
    geotransform :=
      { upper_left_x := rasterOrigin.1, x_size := pixelWidth, x_rotation := 0
        upper_left_y := rasterOrigin.2, y_rotation := 0, y_size := pixelHeight }
    band1 := flipud array }

/-- Translation of `array_to_raster(array, destination_file,
input_raster_file)` (`spatial_functions.py`, lines 3-27): the source
raster supplies the geotransform and pixel counts
(`x_min = upper_left_x; y_max = upper_left_y;
driver.Create(destination_file, x_pixels, y_pixels, 1, gdal.GDT_Float32);
dataset.SetGeoTransform((x_min, x_size, 0, y_max, 0, y_size));
dataset.GetRasterBand(1).WriteArray(array)`) — the array is written
without any flip. -/
def array_to_raster (source : GDALRaster) (array : List (List ℚ)) : GDALRaster :=
  { xsize := source.xsize
    ysize := source.ysize
    bands := 1
    dtype := .GDT_Float32
    geotransform :=
      { upper_left_x := source.geotransform.upper_left_x
        x_size := source.geotransform.x_size
        x_rotation := 0
        upper_left_y := source.geotransform.upper_left_y
        y_rotation := 0
        y_size := source.geotransform.y_size }
    band1 := array }

/-- An input raster file as seen by `initialization`: its path string,
whether `os.path.isfile` holds, and the metadata `gdal.Open` would read. -/
structure InputFile where
  path : String
  isfile : Bool
  geotransform : GeoTransform
  rasterXSize : ℕ
  rasterYSize : ℕ
deriving DecidableEq

/-- The scope/resolution data `initialization` derives from one file and
compares across files: its `Crd_all` together with `x_size` and `y_size`
(`initialization.py`, lines 31-37). -/
def derivedScope (file : InputFile) : Crd × ℚ × ℚ :=
  (computeCrd file.geotransform file.rasterXSize file.rasterYSize,
   file.geotransform.x_size, file.geotransform.y_size)

/-- The entries `initialization` stores into `param`
(`initialization.py`, lines 40-42). -/
structure Params where
  Crd_all : Crd
  res_desired : ResDesired
  GeoRef : GeoRef
deriving DecidableEq

/-- The `param` assignments performed for one file in the scope loop
(`initialization.py`, lines 40-42): `param["Crd_all"] = Crd_all;
param["res_desired"] = np.array([abs(x_size), abs(y_size)]);
param["GeoRef"] = calc_geotiff(Crd_all, param["res_desired"])`. -/
def mkParams (crd : Crd) (x_size y_size : ℚ) : Params :=
  { Crd_all := crd
    res_desired := ⟨|x_size|, |y_size|⟩
    GeoRef := calc_geotiff crd ⟨|x_size|, |y_size|⟩ }

/-- Diagnostic printed before `sys.exit(0)` on a scope/resolution mismatch
(`initialization.py`, line 38). -/
def scopeMismatchMsg : String :=
  "Not the same scope / resolution!"

/-- Python's `str.endswith(t)`, modelled on the underlying character
list: `True` iff the characters of `t` are a suffix of the characters
of `s`. -/
def endswith (s t : String) : Bool :=
  t.data.isSuffixOf s.data

/-- First validation loop (`initialization.py`, lines 20-26): for each
file, `os.path.isfile` then the `.tif` extension; the first failure
yields the printed diagnostic. -/
def checkFiles : List InputFile → Option String
  | [] => none
  | file :: rest =>
    if !file.isfile then
      some ("File does not exist: " ++ file.path)
    else if !(endswith file.path ".tif") then
      some ("File is not raster: " ++ file.path)
    else
      checkFiles rest

/-- Second validation loop (`initialization.py`, lines 29-42), carrying the
reference scope `(Crd_all_old, x_size_old, y_size_old)` and the `param`
entries.  A file whose path equals the first input's path resets the
reference; any other file whose `Crd_all`, `x_size` or `y_size` differs
from the reference triggers the mismatch exit; otherwise the `param`
entries are overwritten from the current file.  (The accumulators passed
at the top-level call are immediately overwritten on the first iteration,
mirroring the source's initially-unset local variables.) -/
def scopeLoop (firstPath : String) :
    List InputFile → Crd × ℚ × ℚ → Params → Except String Params
  | [], _, params => .ok params
  | file :: rest, old, _params =>
    let crd := computeCrd file.geotransform file.rasterXSize file.rasterYSize
    let xs := file.geotransform.x_size
    let ys := file.geotransform.y_size
    if file.path = firstPath then
      scopeLoop firstPath rest (crd, xs, ys) (mkParams crd xs ys)
    else if crd ≠ old.1 ∨ xs ≠ old.2.1 ∨ ys ≠ old.2.2 then
      .error scopeMismatchMsg
    else
      scopeLoop firstPath rest old (mkParams crd xs ys)

/-- Translation of `initialization()` (`initialization.py`, lines 5-53),
parametrised by the input file list and by whether the `input_stats` CSV
already exists.  The first component of the result is the ordered list of
files written (the CSV write on line 50 is the only write, and it happens
after all validation); the second is the outcome, with `Except.error`
carrying the diagnostic printed before `sys.exit(0)`. -/
def initialization (inputs : List InputFile) (input_stats_exists : Bool) :
    List String × Except String Params :=
  match inputs with
  | [] => ([], .error "No input file given!")
  | first :: _ =>
    match checkFiles inputs with
    | some msg => ([], .error msg)
    | none =>
      match scopeLoop first.path inputs (derivedScope first)
          (mkParams (derivedScope first).1 (derivedScope first).2.1
            (derivedScope first).2.2) with
      | .error msg => ([], .error msg)
      | .ok params =>
        ((if input_stats_exists then [] else ["input_stats"]), .ok params)

/-- Helper: when every input exists and carries the `.tif` extension,
the first validation loop reports nothing. -/
lemma checkFiles_eq_none_of_valid (inputs : List InputFile)
    (h : ∀ f ∈ inputs, f.isfile = true ∧ endswith f.path ".tif" = true) :
    checkFiles inputs = none := by
  induction inputs with
  | nil => rfl
  | cons file rest ih =>
    obtain ⟨h1, h2⟩ := h file (List.mem_cons_self _ _)
    simp only [checkFiles, h1, h2, Bool.not_true, Bool.false_eq_true, if_false]
    exact ih fun g hg => h g (List.mem_cons_of_mem _ hg)

/-- Helper: a missing file or a non-`.tif` extension anywhere in the
input list makes the first validation loop report a diagnostic. -/
lemma checkFiles_isSome_of_invalid (inputs : List InputFile)
    (h : ∃ f ∈ inputs, f.isfile = false ∨ endswith f.path ".tif" = false) :
    ∃ msg, checkFiles inputs = some msg := by
  induction inputs with
  | nil =>
    obtain ⟨f, hf, _⟩ := h
    exact absurd hf (List.not_mem_nil f)
  | cons file rest ih =>
    by_cases h1 : file.isfile = true
    · by_cases h2 : endswith file.path ".tif" = true
      · have hrest : ∃ f ∈ rest, f.isfile = false ∨ endswith f.path ".tif" = false := by
          obtain ⟨f, hf, hbad⟩ := h
          rcases List.mem_cons.mp hf with rfl | hf'
          · rcases hbad with hbad | hbad
            · exact absurd h1 (by simp [hbad])
            · exact absurd h2 (by simp [hbad])
          · exact ⟨f, hf', hbad⟩
        obtain ⟨msg, hmsg⟩ := ih hrest
        exact ⟨msg, by simp only [checkFiles, h1, h2, Bool.not_true,
          Bool.false_eq_true, if_false]; exact hmsg⟩
      · refine ⟨"File is not raster: " ++ file.path, ?_⟩
        simp only [checkFiles, h1, Bool.not_true, Bool.false_eq_true, if_false]
        simp [Bool.not_eq_true] at h2
        simp [h2]
    · simp [Bool.not_eq_true] at h1
      exact ⟨"File does not exist: " ++ file.path, by simp [checkFiles, h1]⟩

/-- Helper: the scope loop either exits with the mismatch diagnostic or
succeeds; no other outcome is possible. -/
lemma scopeLoop_error_or_ok (firstPath : String) (files : List InputFile) :
    ∀ (old : Crd × ℚ × ℚ) (params : Params),
      scopeLoop firstPath files old params = .error scopeMismatchMsg ∨
      ∃ p, scopeLoop firstPath files old params = .ok p := by
  induction files with
  | nil => exact fun old params => .inr ⟨params, rfl⟩
  | cons file rest ih =>
    intro old params
    simp only [scopeLoop]
    split
    · exact ih _ _
    · split
      · exact .inl rfl
      · exact ih _ _

/-- Helper: with the reference scope as accumulator, and provided any
file sharing the first input's path carries the reference scope (paths
determine file contents), the scope loop exits with the mismatch
diagnostic exactly when some file's derived scope differs from the
reference. -/
lemma scopeLoop_error_iff (firstPath : String) (ref : Crd × ℚ × ℚ)
    (files : List InputFile) (params : Params)
    (hdet : ∀ f ∈ files, f.path = firstPath → derivedScope f = ref) :
    scopeLoop firstPath files ref params = .error scopeMismatchMsg
      ↔ ∃ f ∈ files, derivedScope f ≠ ref := by
  induction files generalizing params with
  | nil => simp [scopeLoop]
  | cons file rest ih =>
    have hdet' : ∀ f ∈ rest, f.path = firstPath → derivedScope f = ref :=
      fun f hf => hdet f (List.mem_cons_of_mem _ hf)
    have hsplit :
        (∃ f ∈ file :: rest, derivedScope f ≠ ref)
          ↔ derivedScope file ≠ ref ∨ ∃ f ∈ rest, derivedScope f ≠ ref := by
      constructor
      · rintro ⟨f, hf, hne⟩
        rcases List.mem_cons.mp hf with rfl | hf'
        · exact .inl hne
        · exact .inr ⟨f, hf', hne⟩
      · rintro (hne | ⟨f, hf, hne⟩)
        · exact ⟨file, List.mem_cons_self _ _, hne⟩
        · exact ⟨f, List.mem_cons_of_mem _ hf, hne⟩
    by_cases hp : file.path = firstPath
    · have hder : derivedScope file = ref := hdet file (List.mem_cons_self _ _) hp
      have hstep :
          scopeLoop firstPath (file :: rest) ref params
            = scopeLoop firstPath rest ref
                (mkParams (computeCrd file.geotransform file.rasterXSize file.rasterYSize)
                  file.geotransform.x_size file.geotransform.y_size) := by
        simp only [scopeLoop, if_pos hp]
        rw [show (computeCrd file.geotransform file.rasterXSize file.rasterYSize,
              file.geotransform.x_size, file.geotransform.y_size)
            = ref from hder]
      rw [hstep, ih _ hdet', hsplit]
      simp [hder]
    · by_cases hm : derivedScope file = ref
      · have h1 : computeCrd file.geotransform file.rasterXSize file.rasterYSize
            = ref.1 := congrArg Prod.fst hm
        have h2 : file.geotransform.x_size = ref.2.1 :=
          congrArg (fun t => t.2.1) hm
        have h3 : file.geotransform.y_size = ref.2.2 :=
          congrArg (fun t => t.2.2) hm
        have hstep :
            scopeLoop firstPath (file :: rest) ref params
              = scopeLoop firstPath rest ref
                  (mkParams (computeCrd file.geotransform file.rasterXSize file.rasterYSize)
                    file.geotransform.x_size file.geotransform.y_size) := by
          simp only [scopeLoop, if_neg hp]
          rw [if_neg (by push_neg; exact ⟨h1, h2, h3⟩)]
        rw [hstep, ih _ hdet', hsplit]
        simp [hm]
      · have hcond : computeCrd file.geotransform file.rasterXSize file.rasterYSize
              ≠ ref.1
            ∨ file.geotransform.x_size ≠ ref.2.1
            ∨ file.geotransform.y_size ≠ ref.2.2 := by
          by_contra hcon
          push_neg at hcon
          exact hm (by
            have : derivedScope file
                = (ref.1, ref.2.1, ref.2.2) := by
              rw [show derivedScope file
                  = (computeCrd file.geotransform file.rasterXSize file.rasterYSize,
                    file.geotransform.x_size, file.geotransform.y_size) from rfl,
                hcon.1, hcon.2.1, hcon.2.2]
            rw [this])
        have hstep :
            scopeLoop firstPath (file :: rest) ref params
              = .error scopeMismatchMsg := by
          simp only [scopeLoop, if_neg hp]
          rw [if_pos hcond]
        rw [hstep, hsplit]
        simp [hm]

/-- Helper: a mismatch witness in the tail extends to the whole list. -/
lemma exists_mismatch_cons (first : InputFile) (rest : List InputFile) :
    (∃ f ∈ first :: rest, derivedScope f ≠ derivedScope first)
      ↔ ∃ f ∈ rest, derivedScope f ≠ derivedScope first := by
  constructor
  · rintro ⟨f, hf, hne⟩
    rcases List.mem_cons.mp hf with rfl | hf'
    · exact absurd rfl hne
    · exact ⟨f, hf', hne⟩
  · rintro ⟨f, hf, hne⟩
    exact ⟨f, List.mem_cons_of_mem _ hf, hne⟩

/-- C5: for every input raster whose metadata is (origin-X, origin-Y,
pixelWidth, pixelHeight, rasterWidth, rasterHeight), the validator
computes that file's bounding box as north = origin-Y, west = origin-X,
south = origin-Y + pixelHeight × rasterHeight,
east = origin-X + pixelWidth × rasterWidth. -/
theorem computeCrd_bounding_box (gt : GeoTransform) (rasterXSize rasterYSize : ℕ) :
    (computeCrd gt rasterXSize rasterYSize).north = gt.upper_left_y ∧
    (computeCrd gt rasterXSize rasterYSize).west = gt.upper_left_x ∧
    (computeCrd gt rasterXSize rasterYSize).south
      = gt.upper_left_y + gt.y_size * rasterYSize ∧
    (computeCrd gt rasterXSize rasterYSize).east
      = gt.upper_left_x + gt.x_size * rasterXSize :=
  ⟨rfl, rfl, rfl, rfl⟩

/-- C4: for the bounding box (north=10, west=0, south=0, east=10) with
resolution (1,1), `calc_geotiff` returns RasterOrigin=[0,10],
pixelWidth=1, pixelHeight=-1; and for the region bounding box
(north=10, west=0, south=5, east=5), the mask grid of `calc_region` has
5 rows and 5 columns. -/
theorem concrete_scenario_georef_and_shape :
    (calc_geotiff ⟨10, 10, 0, 0⟩ ⟨1, 1⟩).RasterOrigin = (0, 10) ∧
    (calc_geotiff ⟨10, 10, 0, 0⟩ ⟨1, 1⟩).pixelWidth = 1 ∧
    (calc_geotiff ⟨10, 10, 0, 0⟩ ⟨1, 1⟩).pixelHeight = -1 ∧
    calc_region_M ⟨10, 5, 5, 0⟩ ⟨1, 1⟩ = 5 ∧
    calc_region_N ⟨10, 5, 5, 0⟩ ⟨1, 1⟩ = 5 := by
  refine ⟨rfl, rfl, rfl, ?_, ?_⟩ <;>
    norm_num [calc_region_M, calc_region_N, python_int]

/-- C1 (failing input): a validated input with non-square pixels,
x_size = 2 and y_size = -3, shows that the georeference built by the
validator has pixelHeight = -2 and pixelWidth = 3, i.e. pixelHeight is
the negation of the horizontal magnitude and pixelWidth the vertical
magnitude — the opposite of the claimed (pixelHeight, pixelWidth) =
(-3, 2), because line 41 of `initialization.py` builds `res_desired` as
[|x_size|, |y_size|] while `calc_geotiff` (per its own docstring and
the usage of `res_desired` in `calc_region`) expects the vertical
magnitude at index 0 and the horizontal at index 1. -/
theorem initialization_swaps_resolution_components :
    ((initialization [⟨"a.tif", true, ⟨0, 2, 0, 10, 0, -3⟩, 5, 5⟩] true).2).toOption.map
        (fun p => (p.GeoRef.pixelHeight, p.GeoRef.pixelWidth))
      = some (-2, 3) ∧
    |(⟨0, 2, 0, 10, 0, -3⟩ : GeoTransform).y_size| = 3 ∧
    |(⟨0, 2, 0, 10, 0, -3⟩ : GeoTransform).x_size| = 2 ∧
    some ((-2 : ℚ), (3 : ℚ)) ≠ some (-(3 : ℚ), (2 : ℚ)) := by
  refine ⟨by decide, by decide, by decide, by decide⟩

/-- C3 (counterexample): for the region bounding box
(north=10, east=5, south=5, west=0) and the georeference of the
(0..10)×(0..10) scope at resolution (1,1), the transform stamped on the
mask raster by `calc_region` differs from a georeference anchored at
the region's north-west corner with the global signed pixel sizes: the
code anchors at (west, south) = (0, 5) and carries the positive
vertical step 1, not the signed pixelHeight = -1 at north = 10. -/
theorem calc_region_transform_not_nw_anchored :
    calc_region_transform ⟨10, 5, 5, 0⟩ (calc_geotiff ⟨10, 10, 0, 0⟩ ⟨1, 1⟩)
      ≠ spec_region_transform_nw ⟨10, 5, 5, 0⟩ (calc_geotiff ⟨10, 10, 0, 0⟩ ⟨1, 1⟩) := by
  decide

/-- C3 (amended): for every region and georeference, the mask raster of
`calc_region` is georeferenced with its origin at the region's
south-west corner (west coordinate, south coordinate), with horizontal
pixel size equal to the global pixelWidth, and with vertical coefficient
equal to the negation of the global signed pixelHeight (a positive
step, because `calc_region` hands the already-negative pixelHeight to
`from_origin`, which negates it again). -/
theorem calc_region_transform_sw_anchored (Crd_reg : Crd) (georef : GeoRef) :
    calc_region_transform Crd_reg georef
      = { a := georef.pixelWidth, b := 0, c := Crd_reg.west, d := 0
          e := -georef.pixelHeight, f := Crd_reg.south } :=
  rfl

/-- C2: for every region bounding box and positive resolution pair, the
mask grid built by `calc_region` has exactly
rows = floor(|north − south| / res0) and
cols = floor(|east − west| / res1), where index 0 of `res_desired`
holds the vertical pixel-size magnitude and index 1 the horizontal one;
a region smaller than one pixel in a dimension yields zero rows or
columns rather than an error. -/
theorem calc_region_shape (Crd_reg : Crd) (res : ResDesired)
    (h0 : 0 < res.res0) (h1 : 0 < res.res1) :
    calc_region_M Crd_reg res = ⌊|Crd_reg.north - Crd_reg.south| / res.res0⌋₊ ∧
    calc_region_N Crd_reg res = ⌊|Crd_reg.east - Crd_reg.west| / res.res1⌋₊ ∧
    (|Crd_reg.north - Crd_reg.south| < res.res0 → calc_region_M Crd_reg res = 0) ∧
    (|Crd_reg.east - Crd_reg.west| < res.res1 → calc_region_N Crd_reg res = 0) := by
  have habs_ns : |Crd_reg.south - Crd_reg.north| = |Crd_reg.north - Crd_reg.south| :=
    abs_sub_comm _ _
  have habs_ew : |Crd_reg.west - Crd_reg.east| = |Crd_reg.east - Crd_reg.west| :=
    abs_sub_comm _ _
  have hq0 : (0 : ℚ) ≤ |Crd_reg.north - Crd_reg.south| / res.res0 :=
    div_nonneg (abs_nonneg _) h0.le
  have hq1 : (0 : ℚ) ≤ |Crd_reg.east - Crd_reg.west| / res.res1 :=
    div_nonneg (abs_nonneg _) h1.le
  have hM : calc_region_M Crd_reg res = ⌊|Crd_reg.north - Crd_reg.south| / res.res0⌋₊ := by
    rw [calc_region_M, python_int, habs_ns, if_neg (not_lt.mpr hq0),
      ← Int.natCast_floor_eq_floor hq0]
  have hN : calc_region_N Crd_reg res = ⌊|Crd_reg.east - Crd_reg.west| / res.res1⌋₊ := by
    rw [calc_region_N, python_int, habs_ew, if_neg (not_lt.mpr hq1),
      ← Int.natCast_floor_eq_floor hq1]
  refine ⟨hM, hN, fun hlt => ?_, fun hlt => ?_⟩
  · rw [hM]
    have : |Crd_reg.north - Crd_reg.south| / res.res0 < 1 := (div_lt_one h0).mpr hlt
    exact_mod_cast Nat.floor_eq_zero.mpr this
  · rw [hN]
    have : |Crd_reg.east - Crd_reg.west| / res.res1 < 1 := (div_lt_one h1).mpr hlt
    exact_mod_cast Nat.floor_eq_zero.mpr this

/-- C2 (witness): a region of height 1/2 and width 1/3 at resolution
(1,1) is smaller than one pixel in both dimensions and yields a 0 × 0
mask grid. -/
theorem calc_region_shape_witness :
    calc_region_M ⟨1/2, 1/3, 0, 0⟩ ⟨1, 1⟩ = 0 ∧
    calc_region_N ⟨1/2, 1/3, 0, 0⟩ ⟨1, 1⟩ = 0 := by
  have h := calc_region_shape ⟨1/2, 1/3, 0, 0⟩ ⟨1, 1⟩ (by norm_num) (by norm_num)
  exact ⟨h.2.2.1 (by rw [abs_lt]; norm_num), h.2.2.2 (by rw [abs_lt]; norm_num)⟩

/-- C6: for a non-empty validated input list in which paths determine
file contents, validation exits with the mismatch diagnostic exactly
when some subsequent file's bounding box or pixel sizes differ in some
component from the first file's; a detected mismatch produces no output
file and no georeference, and if all files match the first
componentwise, validation succeeds. -/
theorem initialization_mismatch_detection (first : InputFile)
    (rest : List InputFile) (b : Bool)
    (hfiles : ∀ f ∈ first :: rest, f.isfile = true ∧ endswith f.path ".tif" = true)
    (hdet : ∀ f ∈ first :: rest,
      f.path = first.path → derivedScope f = derivedScope first) :
    ((initialization (first :: rest) b).2 = .error scopeMismatchMsg
      ↔ ∃ f ∈ rest, derivedScope f ≠ derivedScope first) ∧
    ((∃ f ∈ rest, derivedScope f ≠ derivedScope first) →
      (initialization (first :: rest) b).1 = []) ∧
    ((∀ f ∈ rest, derivedScope f = derivedScope first) →
      ∃ p, (initialization (first :: rest) b).2 = .ok p) := by
  have hchk : checkFiles (first :: rest) = none :=
    checkFiles_eq_none_of_valid _ hfiles
  have hiff := scopeLoop_error_iff first.path (derivedScope first) (first :: rest)
    (mkParams (derivedScope first).1 (derivedScope first).2.1
      (derivedScope first).2.2) hdet
  rcases scopeLoop_error_or_ok first.path (first :: rest) (derivedScope first)
      (mkParams (derivedScope first).1 (derivedScope first).2.1
        (derivedScope first).2.2) with herr | ⟨p, hok⟩
  · have hmis : ∃ f ∈ rest, derivedScope f ≠ derivedScope first :=
      (exists_mismatch_cons first rest).mp (hiff.mp herr)
    have hres : initialization (first :: rest) b = ([], .error scopeMismatchMsg) := by
      simp only [initialization, hchk, herr]
    refine ⟨⟨fun _ => hmis, fun _ => by rw [hres]⟩, fun _ => by rw [hres],
      fun hall => ?_⟩
    obtain ⟨f, hf, hne⟩ := hmis
    exact absurd (hall f hf) hne
  · have hok' : ¬∃ f ∈ rest, derivedScope f ≠ derivedScope first := by
      intro hmis
      have hc := hiff.mpr ((exists_mismatch_cons first rest).mpr hmis)
      rw [hok] at hc
      exact Except.noConfusion hc
    have hres : initialization (first :: rest) b
        = ((if b then [] else ["input_stats"]), .ok p) := by
      simp only [initialization, hchk, hok]
    refine ⟨⟨fun hcon => ?_, fun hmis => absurd hmis hok'⟩,
      fun hmis => absurd hmis hok', fun _ => ⟨p, by rw [hres]⟩⟩
    rw [hres] at hcon
    exact Except.noConfusion hcon

/-- C6 (witness): two existing `.tif` inputs with the same bounding box
but different `x_size` (1 versus 2) make validation exit with the
mismatch diagnostic. -/
theorem initialization_mismatch_detection_witness :
    (initialization [⟨"a.tif", true, ⟨0, 1, 0, 10, 0, -1⟩, 10, 10⟩,
        ⟨"b.tif", true, ⟨0, 2, 0, 10, 0, -1⟩, 5, 10⟩] false).2
      = .error scopeMismatchMsg := by
  have h := initialization_mismatch_detection
    ⟨"a.tif", true, ⟨0, 1, 0, 10, 0, -1⟩, 10, 10⟩
    [⟨"b.tif", true, ⟨0, 2, 0, 10, 0, -1⟩, 5, 10⟩] false
    (by decide)
    (by
      intro f hf hp
      rcases List.mem_cons.mp hf with rfl | hf'
      · rfl
      · rcases List.mem_cons.mp hf' with rfl | hf''
        · exact absurd hp (by decide)
        · exact absurd hf'' (List.not_mem_nil f))
  refine h.1.mpr ⟨⟨"b.tif", true, ⟨0, 2, 0, 10, 0, -1⟩, 5, 10⟩,
    List.mem_cons_self _ _, fun hcon => ?_⟩
  have hxs := congrArg (fun t => t.2.1) hcon
  exact absurd hxs (by norm_num [derivedScope])

/-- C7: for every input list in which paths determine file contents,
every fatal validation failure (empty input list, missing file,
non-`.tif` extension, or extent mismatch) makes `initialization` exit
with a diagnostic, writing no output file at all — in particular the
input-stats CSV is not written. -/
theorem initialization_fails_before_output (inputs : List InputFile) (b : Bool)
    (hdet : ∀ f ∈ inputs, ∀ g ∈ inputs,
      f.path = g.path → derivedScope f = derivedScope g)
    (hfail : inputs = []
      ∨ (∃ f ∈ inputs, f.isfile = false)
      ∨ (∃ f ∈ inputs, endswith f.path ".tif" = false)
      ∨ ∃ first rest, inputs = first :: rest
          ∧ ∃ f ∈ rest, derivedScope f ≠ derivedScope first) :
    (initialization inputs b).1 = [] ∧
    ∃ msg, (initialization inputs b).2 = .error msg := by
  rcases hfail with rfl | hbad | hbad | ⟨first, rest, rfl, f, hf, hne⟩
  · exact ⟨rfl, "No input file given!", rfl⟩
  · cases inputs with
    | nil => exact ⟨rfl, "No input file given!", rfl⟩
    | cons first rest =>
      obtain ⟨f, hf, h1⟩ := hbad
      obtain ⟨msg, hchk⟩ :=
        checkFiles_isSome_of_invalid (first :: rest) ⟨f, hf, .inl h1⟩
      simp only [initialization, hchk]
      exact ⟨trivial, msg, rfl⟩
  · cases inputs with
    | nil => exact ⟨rfl, "No input file given!", rfl⟩
    | cons first rest =>
      obtain ⟨f, hf, h2⟩ := hbad
      obtain ⟨msg, hchk⟩ :=
        checkFiles_isSome_of_invalid (first :: rest) ⟨f, hf, .inr h2⟩
      simp only [initialization, hchk]
      exact ⟨trivial, msg, rfl⟩
  · cases hchk : checkFiles (first :: rest) with
    | some msg =>
      simp only [initialization, hchk]
      exact ⟨trivial, msg, rfl⟩
    | none =>
      have hdet' : ∀ g ∈ first :: rest,
          g.path = first.path → derivedScope g = derivedScope first :=
        fun g hg hp => hdet g hg first (List.mem_cons_self _ _) hp
      have herr := (scopeLoop_error_iff first.path (derivedScope first)
          (first :: rest)
          (mkParams (derivedScope first).1 (derivedScope first).2.1
            (derivedScope first).2.2) hdet').mpr
        ((exists_mismatch_cons first rest).mpr ⟨f, hf, hne⟩)
      simp only [initialization, hchk, herr]
      exact ⟨trivial, scopeMismatchMsg, rfl⟩

/-- C7 (witness): the empty input list exits with a diagnostic and
writes nothing. -/
theorem initialization_fails_before_output_witness :
    (initialization [] false).1 = [] ∧
    ∃ msg, (initialization [] false).2 = .error msg :=
  initialization_fails_before_output [] false
    (fun f hf => absurd hf (List.not_mem_nil f)) (Or.inl rfl)

/-- C8: for every input array, `array2raster` writes a single-band
64-bit floating-point raster whose band content is the input grid
flipped vertically (row i of the band is row (rows−1−i) of the array),
stamped with the supplied origin and signed pixel sizes. -/
theorem array2raster_writes_flipped (rasterOrigin : ℚ × ℚ)
    (pixelWidth pixelHeight : ℚ) (array : List (List ℚ)) (i : ℕ)
    (hi : i < array.length) :
    (array2raster rasterOrigin pixelWidth pixelHeight array).bands = 1 ∧
    (array2raster rasterOrigin pixelWidth pixelHeight array).dtype = .GDT_Float64 ∧
    (array2raster rasterOrigin pixelWidth pixelHeight array).geotransform
      = ⟨rasterOrigin.1, pixelWidth, 0, rasterOrigin.2, 0, pixelHeight⟩ ∧
    (array2raster rasterOrigin pixelWidth pixelHeight array).band1 = flipud array ∧
    ((array2raster rasterOrigin pixelWidth pixelHeight array).band1)[i]?
      = array[array.length - 1 - i]? := by
  refine ⟨rfl, rfl, rfl, rfl, ?_⟩
  show (array.reverse)[i]? = array[array.length - 1 - i]?
  rw [List.getElem?_reverse hi]

/-- C8 (witness): writing the two-row array [[1],[2]] puts row [2]
first in the band. -/
theorem array2raster_writes_flipped_witness :
    ((array2raster (0, 0) 1 (-1) [[(1 : ℚ)], [2]]).band1)[0]? = some [2] := by
  have h :=
    (array2raster_writes_flipped (0, 0) 1 (-1) [[(1 : ℚ)], [2]] 0 (by decide)).2.2.2.2
  simpa using h

/-- C10: for every input array, `array_to_raster` (the reference-raster
variant) writes the band content in the array's own row order without
any vertical flip (row i of the band is row i of the array) — unlike
`array2raster`, which reverses the rows, as the two writers' bands on
the concrete array [[1],[2]] show. -/
theorem array_to_raster_preserves_row_order (source : GDALRaster)
    (array : List (List ℚ)) (i : ℕ) :
    (array_to_raster source array).band1 = array ∧
    ((array_to_raster source array).band1)[i]? = array[i]? ∧
    (array_to_raster source [[(1 : ℚ)], [2]]).band1
      ≠ (array2raster (0, 0) 1 (-1) [[(1 : ℚ)], [2]]).band1 :=
  ⟨rfl, rfl, by
    show ([[(1 : ℚ)], [2]] : List (List ℚ)) ≠ [[(1 : ℚ)], [2]].reverse
    decide⟩

end PyCLARA
